import Mathlib

/-!
Shallow embedding of the workflow execution engine in
`backend/app/services/browser_service.py` (class `BrowserService`).

Modelling conventions:
* The injected browser capability and the AI advisor are pure records of
  functions (`Browser`, `Advisor`); a call that would raise an exception in
  Python is a function returning `Except.error`.
* Every call to `datetime.now()` consumes the head of an explicit timestamp
  list `clk : List Nat` (the ambient clock); an empty list reads as 0.
* Each model function returns, besides the Python return value, a trace of
  the external calls it performed (`List Ev`) and the remaining clock.
  The extra `Ev.dispatchStep` event marks each entry into
  `execute_workflow_step` so that dispatcher invocations are observable.
* Python result dicts are modelled by the record `RDict`; a field holding
  `none` stands for a key that is absent or bound to Python `None`,
  except `screenshot`, where the report construction distinguishes the
  two (indexing an absent key raises KeyError): there `none` is an absent
  key, `some none` a key bound to `None`, `some (some s)` a string.
* The `for`/`break` loop of `execute_workflow` is modelled by structural
  recursion (`runSteps`); the extra `stopped` flag records whether the loop
  exited through `break`, it is ignored by the final report.
-/

/-- Values the browser capability can hand back (element text, attribute
values, lists of texts, booleans from `exists`/`evaluate`). -/
inductive JVal where
  | s (v : String)
  | b (v : Bool)
  | arr (vs : List String)
deriving DecidableEq, Repr

/-- The `data` payloads constructed by the action helpers, one constructor
per construction site in the source. -/
inductive RData where
  | nav (url title : String)
  | clicked (selector : String)
  | aiClicked (selector : String)
  | filled (selector value : String)
  | extracted (selector : String) (v : JVal)
  | waited (condition wait_type : String)
  | conditional (condition : String) (result : JVal)
deriving DecidableEq, Repr

/-- A step-result dict as built by `BrowserService`.  `none` means the key
is absent or `None`. -/
structure RDict where
  step_number : Option Nat := none
  action_type : Option String := none
  success : Bool := false
  data : Option RData := none
  screenshot : Option (Option String) := none
  error : Option String := none
  duration : Option Int := none
  recovery_attempted : Option Bool := none
deriving DecidableEq, Repr

/-- The `parameters` mapping of a step, restricted to the keys the engine
reads; `none` models an absent key (so `.get` defaults apply). -/
structure Params where
  wait_time : Option Int := none
  fallback_selectors : Option (List String) := none
  value : Option String := none
  clear_first : Option Bool := none
  type : Option String := none
  attribute_ : Option String := none
  timeout : Option Int := none
  search_text : Option String := none
  javascript : Option String := none
deriving DecidableEq, Repr

/-- A structured workflow step. -/
structure Step where
  step_number : Nat
  action_type : String
  target : String
  parameters : Params := {}
  description : String := ""
deriving DecidableEq, Repr

/-- Trace events: one per external (browser / advisor) call, plus a marker
for each Action Dispatcher invocation.  Sleep amounts are recorded in
milliseconds (the 2-second recovery delay is `sleep 2000`). -/
inductive Ev where
  | dispatchStep (n : Nat)
  | goto (url : String)
  | sleep (ms : Int)
  | click (selector : String)
  | clear (selector : String)
  | typeIn (selector value : String)
  | textGet (selector : String)
  | attrGet (selector name : String)
  | textAllGet (selector : String)
  | existsQ (selector : String)
  | evalJs (js : String)
  | waitForElement (selector : String) (timeout : Int)
  | waitForText (t : String) (timeout : Int)
  | titleGet
  | shot (path : String)
  | advisorAnalyze (screenshot description : String)
  | advisorRecovery (error_description : String)
deriving DecidableEq, Repr

/-- An element proposed by the vision advisor in `_ai_assisted_click`. -/
structure IdElem where
  description : String := ""
  selector : Option String := none
deriving DecidableEq, Repr

/-- The injected browser capability; `Except.error` models a raised
exception. -/
structure Browser where
  goto : String → Except String Unit
  title : Except String String
  click : String → Except String Unit
  clear : String → Except String Unit
  typeText : String → String → Except String Unit
  text : String → Except String String
  attribute_ : String → String → Except String String
  text_all : String → Except String (List String)
  existsEl : String → Except String Bool
  evaluate : String → Except String JVal
  wait_for_element : String → Int → Except String Unit
  wait_for_text : String → Int → Except String Unit
  screenshot : String → Except String Unit

/-- The AI advisor capability (`ai_service`).  `analyze_screenshot` yields
the `identified_elements` list; `generate_error_recovery_strategy` yields
the `recommended_action` value of the returned dict (`none` when the key is
missing, so the `.get` default `manual_intervention` applies). -/
structure Advisor where
  analyze_screenshot : String → String → Except String (List IdElem)
  generate_error_recovery_strategy : String → String → Except String (Option String)

/-- The mutable execution context: an insertion-ordered dict from keys
`step_<n>_result` to recorded step data. -/
abbrev Ctx := List (String × Option RData)

/-- Python dict assignment `c[k] = v`: overwrite in place, else append. -/
def ctxUpdate (c : Ctx) (k : String) (v : Option RData) : Ctx :=
  if (c.map Prod.fst).contains k then
    c.map (fun p => if p.1 = k then (k, v) else p)
  else c ++ [(k, v)]

/-- Output of a helper/dispatcher call: the Python result dict, the trace
of the external calls made, and the remaining clock. -/
structure StepOut where
  r : RDict
  evs : List Ev
  clk : List Nat
deriving Repr

/-- `datetime.now()` reads (and consumes) the head of the clock list. -/
def now (clk : List Nat) : Nat × List Nat := (clk.headD 0, clk.tail)

/-- Python substring test `needle in hay`. -/
def strIn (needle hay : String) : Bool := decide (needle.toList <:+: hay.toList)

/-- `_take_screenshot`: derive the file name from the current timestamp,
save via the browser; on a raised exception return the empty string. -/
def take_screenshot (B : Browser) (clk : List Nat) : String × List Ev × List Nat :=
  let t := now clk
  let path := "screenshots/screenshot_" ++ toString t.1 ++ ".png"
  match B.screenshot path with
  | .ok _ => (path, [Ev.shot path], t.2)
  | .error _ => ("", [Ev.shot path], t.2)

/-- `_navigate_to_url`. -/
def navigate_to_url (B : Browser) (url : String) (parameters : Params)
    (clk : List Nat) : StepOut :=
  match B.goto url with
  | .error e => ⟨{success := false, error := some e}, [Ev.goto url], clk⟩
  | .ok _ =>
    let wait_time := parameters.wait_time.getD 3000
    let evWait := if wait_time > 0 then [Ev.sleep wait_time] else []
    match B.title with
    | .error e =>
      ⟨{success := false, error := some e}, Ev.goto url :: evWait ++ [Ev.titleGet], clk⟩
    | .ok t =>
      let sh := take_screenshot B clk
      ⟨{success := true, data := some (.nav url t), screenshot := some (some sh.1)},
        Ev.goto url :: evWait ++ [Ev.titleGet] ++ sh.2.1, sh.2.2⟩

/-- Output of the selector loop inside `_click_element`: `none` when every
candidate selector failed. -/
structure ClickOut where
  res : Option RDict
  evs : List Ev
  clk : List Nat
deriving Repr

/-- The `for sel in selectors` loop of `_click_element`: try each candidate
in order, continuing past raised click exceptions, returning at the first
click that succeeds. -/
def clickLoop (B : Browser) (parameters : Params) :
    List String → List Nat → ClickOut
  | [], clk => ⟨none, [], clk⟩
  | sel :: rest, clk =>
    match B.click sel with
    | .error _ =>
      let o := clickLoop B parameters rest clk
      ⟨o.res, Ev.click sel :: o.evs, o.clk⟩
    | .ok _ =>
      let wait_time := parameters.wait_time.getD 1000
      let evWait := if wait_time > 0 then [Ev.sleep wait_time] else []
      let sh := take_screenshot B clk
      ⟨some {success := true, data := some (.clicked sel), screenshot := some (some sh.1)},
        Ev.click sel :: evWait ++ sh.2.1, sh.2.2⟩

/-- The `for element in identified_elements` loop of `_ai_assisted_click`:
try each advisor-proposed element whose description matches, continuing
past raised click exceptions. -/
def aiLoop (B : Browser) (element_description screenshot_path : String) :
    List IdElem → Option RDict × List Ev
  | [] => (none, [])
  | e :: rest =>
    if strIn element_description.toLower e.description.toLower then
      match e.selector with
      | some sel =>
        if sel = "" then aiLoop B element_description screenshot_path rest
        else
          match B.click sel with
          | .ok _ =>
            (some {success := true, data := some (.aiClicked sel),
                   screenshot := some (some screenshot_path)}, [Ev.click sel])
          | .error _ =>
            let o := aiLoop B element_description screenshot_path rest
            (o.1, Ev.click sel :: o.2)
      | none => aiLoop B element_description screenshot_path rest
    else aiLoop B element_description screenshot_path rest

/-- `_ai_assisted_click`. -/
def ai_assisted_click (B : Browser) (A : Advisor) (element_description : String)
    (_parameters : Params) (clk : List Nat) : StepOut :=
  let sh := take_screenshot B clk
  let prompt := "Find and click element: " ++ element_description
  match A.analyze_screenshot sh.1 prompt with
  | .error e =>
    ⟨{success := false, error := some e},
      sh.2.1 ++ [Ev.advisorAnalyze sh.1 prompt], sh.2.2⟩
  | .ok elems =>
    let o := aiLoop B element_description sh.1 elems
    match o.1 with
    | some r => ⟨r, sh.2.1 ++ [Ev.advisorAnalyze sh.1 prompt] ++ o.2, sh.2.2⟩
    | none =>
      ⟨{success := false, error := some "AI could not find the specified element"},
        sh.2.1 ++ [Ev.advisorAnalyze sh.1 prompt] ++ o.2, sh.2.2⟩

/-- `_click_element`: the primary selector followed by
`parameters.fallback_selectors`, then the AI-assisted path when every
candidate failed. -/
def click_element (B : Browser) (A : Advisor) (selector : String)
    (parameters : Params) (clk : List Nat) : StepOut :=
  let selectors := selector :: parameters.fallback_selectors.getD []
  let o := clickLoop B parameters selectors clk
  match o.res with
  | some r => ⟨r, o.evs, o.clk⟩
  | none =>
    let ai := ai_assisted_click B A selector parameters o.clk
    ⟨ai.r, o.evs ++ ai.evs, ai.clk⟩

/-- `_fill_form`. -/
def fill_form (B : Browser) (selector : String) (parameters : Params)
    (clk : List Nat) : StepOut :=
  let value := parameters.value.getD ""
  let clear_first := parameters.clear_first.getD true
  let clearStep : Except String Unit × List Ev :=
    if clear_first then (B.clear selector, [Ev.clear selector]) else (.ok (), [])
  match clearStep.1 with
  | .error e => ⟨{success := false, error := some e}, clearStep.2, clk⟩
  | .ok _ =>
    match B.typeText selector value with
    | .error e =>
      ⟨{success := false, error := some e}, clearStep.2 ++ [Ev.typeIn selector value], clk⟩
    | .ok _ =>
      let sh := take_screenshot B clk
      ⟨{success := true, data := some (.filled selector value), screenshot := some (some sh.1)},
        clearStep.2 ++ [Ev.typeIn selector value] ++ sh.2.1, sh.2.2⟩

/-- `_extract_data`. -/
def extract_data (B : Browser) (selector : String) (parameters : Params)
    (clk : List Nat) : StepOut :=
  let extraction_type := parameters.type.getD "text"
  let got : Except String JVal × List Ev :=
    if extraction_type = "text" then
      ((B.text selector).map .s, [Ev.textGet selector])
    else if extraction_type = "attribute" then
      let attr := parameters.attribute_.getD "href"
      ((B.attribute_ selector attr).map .s, [Ev.attrGet selector attr])
    else if extraction_type = "multiple" then
      ((B.text_all selector).map .arr, [Ev.textAllGet selector])
    else
      ((B.text selector).map .s, [Ev.textGet selector])
  match got.1 with
  | .error e => ⟨{success := false, error := some e}, got.2, clk⟩
  | .ok v =>
    let sh := take_screenshot B clk
    ⟨{success := true, data := some (.extracted selector v), screenshot := some (some sh.1)},
      got.2 ++ sh.2.1, sh.2.2⟩

/-- `_wait_action`: a `type` other than `time`, `element` or `text` runs no
wait at all and falls through to the success result. -/
def wait_action (B : Browser) (condition : String) (parameters : Params)
    (clk : List Nat) : StepOut :=
  let wait_type := parameters.type.getD "time"
  let timeout := parameters.timeout.getD 10000
  let waited : Except String Unit × List Ev :=
    if wait_type = "time" then (.ok (), [Ev.sleep timeout])
    else if wait_type = "element" then
      (B.wait_for_element condition timeout, [Ev.waitForElement condition timeout])
    else if wait_type = "text" then
      (B.wait_for_text condition timeout, [Ev.waitForText condition timeout])
    else (.ok (), [])
  match waited.1 with
  | .error e => ⟨{success := false, error := some e}, waited.2, clk⟩
  | .ok _ =>
    let sh := take_screenshot B clk
    ⟨{success := true, data := some (.waited condition wait_type), screenshot := some (some sh.1)},
      waited.2 ++ sh.2.1, sh.2.2⟩

/-- `_execute_conditional`; the context argument is received but never read
by the source. -/
def execute_conditional (B : Browser) (condition : String) (parameters : Params)
    (_context : Ctx) (clk : List Nat) : StepOut :=
  let condition_type := parameters.type.getD "element_exists"
  let got : Except String JVal × List Ev :=
    if condition_type = "element_exists" then
      ((B.existsEl condition).map .b, [Ev.existsQ condition])
    else if condition_type = "text_contains" then
      match B.text condition with
      | .error e => (.error e, [Ev.textGet condition])
      | .ok t =>
        let search_text := parameters.search_text.getD ""
        (.ok (.b (strIn search_text t)), [Ev.textGet condition])
    else if condition_type = "custom" then
      let js := parameters.javascript.getD ""
      (B.evaluate js, [Ev.evalJs js])
    else (.ok (.b false), [])
  match got.1 with
  | .error e => ⟨{success := false, error := some e}, got.2, clk⟩
  | .ok v =>
    let sh := take_screenshot B clk
    ⟨{success := true, data := some (.conditional condition v), screenshot := some (some sh.1)},
      got.2 ++ sh.2.1, sh.2.2⟩

/-- `execute_workflow_step` (the Action Dispatcher): time the dispatch,
route on `action_type`, and on success take a (second) screenshot that
overwrites the helper one.  Helper results carry no `step_number` or
`action_type` key because the source rebinds `result` wholesale. -/
def execute_workflow_step (B : Browser) (A : Advisor) (step : Step)
    (context : Ctx) (clk : List Nat) : StepOut :=
  let st := now clk
  let d : StepOut :=
    if step.action_type = "navigate" then
      navigate_to_url B step.target step.parameters st.2
    else if step.action_type = "click" then
      click_element B A step.target step.parameters st.2
    else if step.action_type = "fill" then
      fill_form B step.target step.parameters st.2
    else if step.action_type = "extract" then
      extract_data B step.target step.parameters st.2
    else if step.action_type = "wait" then
      wait_action B step.target step.parameters st.2
    else if step.action_type = "conditional" then
      execute_conditional B step.target step.parameters context st.2
    else
      ⟨{step_number := some step.step_number, action_type := some step.action_type,
        success := false, screenshot := some none,
        error := some ("Unknown action type: " ++ step.action_type)},
        [], st.2⟩
  let en := now d.clk
  let r1 : RDict := {d.r with duration := some ((en.1 : Int) - (st.1 : Int))}
  if r1.success then
    let sh := take_screenshot B en.2
    ⟨{r1 with screenshot := some (some sh.1)},
      Ev.dispatchStep step.step_number :: (d.evs ++ sh.2.1), sh.2.2⟩
  else
    ⟨r1, Ev.dispatchStep step.step_number :: d.evs, en.2⟩

/-- The all-failures-exhausted dict of `_handle_step_failure` and the
generic exception dict of its outer handler. -/
def failR (e : String) : RDict := {success := false, error := some e}

/-- The dict returned when every recovery attempt fails: the only place
the source sets `recovery_attempted`. -/
def recoveryFailed (error_description : String) : RDict :=
  {success := false, error := some ("Recovery failed: " ++ error_description),
   recovery_attempted := some true}

/-- `_handle_step_failure` (the Recovery Coordinator).  In the
`alternative_approach` branch the source iterates `fallback_selectors`
with `try ... except Exception: continue`, but the loop body ends in an
unconditional `return` and `execute_workflow_step` returns failure dicts
instead of raising, so only the first fallback selector is ever
dispatched; an empty list falls through to the `recoveryFailed` dict. -/
def handle_step_failure (B : Browser) (A : Advisor) (step : Step)
    (step_result : RDict) (context : Ctx) (clk : List Nat) : StepOut :=
  let error_description := step_result.error.getD "Unknown error"
  let workflow_context := "Step " ++ toString step.step_number ++ ": " ++ step.description
  match A.generate_error_recovery_strategy error_description workflow_context with
  | .error e => ⟨failR e, [Ev.advisorRecovery error_description], clk⟩
  | .ok strat =>
    let recommended_action := strat.getD "manual_intervention"
    if recommended_action = "immediate_retry" then
      let d := execute_workflow_step B A step context clk
      ⟨d.r, Ev.advisorRecovery error_description :: Ev.sleep 2000 :: d.evs, d.clk⟩
    else if recommended_action = "alternative_approach" then
      match step.parameters.fallback_selectors.getD [] with
      | [] => ⟨recoveryFailed error_description, [Ev.advisorRecovery error_description], clk⟩
      | sel :: _ =>
        let d := execute_workflow_step B A {step with target := sel} context clk
        ⟨d.r, Ev.advisorRecovery error_description :: d.evs, d.clk⟩
    else ⟨recoveryFailed error_description, [Ev.advisorRecovery error_description], clk⟩

/-- The loop state of `execute_workflow`: accumulated results, context,
trace, remaining clock, and whether the loop exited through `break`. -/
structure RunOut where
  results : List RDict
  ctx : Ctx
  evs : List Ev
  clk : List Nat
  stopped : Bool
deriving Repr

/-- The context key written after a successful step. -/
def ctxKey (n : Nat) : String := "step_" ++ toString n ++ "_result"

/-- The `for step in workflow_steps` loop of `execute_workflow`: dispatch,
append the result, record context on success, run recovery on failure;
a successful recovery replaces the stored result, a failed one breaks. -/
def runSteps (B : Browser) (A : Advisor) :
    List Step → List RDict → Ctx → List Nat → RunOut
  | [], results, ctx, clk => ⟨results, ctx, [], clk, false⟩
  | step :: rest, results, ctx, clk =>
    let d := execute_workflow_step B A step ctx clk
    if d.r.success then
      let ctx1 := ctxUpdate ctx (ctxKey step.step_number) d.r.data
      let o := runSteps B A rest (results ++ [d.r]) ctx1 d.clk
      ⟨o.results, o.ctx, d.evs ++ o.evs, o.clk, o.stopped⟩
    else
      let h := handle_step_failure B A step d.r ctx d.clk
      if h.r.success then
        let o := runSteps B A rest (results ++ [h.r]) ctx h.clk
        ⟨o.results, o.ctx, d.evs ++ h.evs ++ o.evs, o.clk, o.stopped⟩
      else ⟨results ++ [d.r], ctx, d.evs ++ h.evs, h.clk, true⟩

/-- The workflow run report dict built by `execute_workflow`.  The
exception-handler fallback dict carries an `error` key but neither a
`context` nor a `screenshots` key, so those two are optional here
(`none` = key absent). -/
structure Report where
  workflow_success : Bool
  steps_completed : Nat
  total_steps : Nat
  step_results : List RDict
  context : Option Ctx
  screenshots : Option (List String)
  error : Option String := none
deriving DecidableEq, Repr

/-- Result of a whole run: the report plus the run trace and clock. -/
structure RunResult where
  report : Report
  evs : List Ev
  clk : List Nat
deriving Repr

/-- The screenshots comprehension of the report: indexing `screenshot`
on a dict without that key (every helper failure dict) raises KeyError;
a present but falsy value (`None` or the empty string) is filtered out.
The error string models `str(KeyError(...))`. -/
def screenshotsOf : List RDict → Except String (List String)
  | [] => .ok []
  | r :: rest =>
    match r.screenshot with
    | none => .error "KeyError: screenshot"
    | some v =>
      match screenshotsOf rest with
      | .error e => .error e
      | .ok tail =>
        .ok (match v with
          | none => tail
          | some sv => if sv = "" then tail else sv :: tail)

/-- `execute_workflow` (the Workflow Runner): run the loop, then aggregate
success counts and the screenshot list.  When the screenshots
comprehension raises (a stored result without a `screenshot` key, i.e.
any helper failure the run stopped on), the surrounding `try` returns the
fallback report instead: `steps_completed = 0`, `total_steps` the length
of the submitted list, and no step results. -/
def execute_workflow (B : Browser) (A : Advisor) (workflow_steps : List Step)
    (context : Ctx) (clk : List Nat) : RunResult :=
  let o := runSteps B A workflow_steps [] context clk
  let successful_steps := (o.results.filter (fun r => r.success)).length
  let total_steps := o.results.length
  let report : Report :=
    match screenshotsOf o.results with
    | .ok shots =>
      { workflow_success := decide (successful_steps = total_steps)
      , steps_completed := successful_steps
      , total_steps := total_steps
      , step_results := o.results
      , context := some o.ctx
      , screenshots := some shots }
    | .error e =>
      { workflow_success := false
      , steps_completed := 0
      , total_steps := workflow_steps.length
      , step_results := []
      , context := none
      , screenshots := none
      , error := some e }
  ⟨report, o.evs, o.clk⟩

/-! ### Trace observations -/

/-- Is the event a consultation of the recovery advisor? -/
def isRecoveryEv : Ev → Bool
  | .advisorRecovery _ => true
  | _ => false

/-- Is the event an Action Dispatcher invocation marker? -/
def isDispatchEv : Ev → Bool
  | .dispatchStep _ => true
  | _ => false

/-- Is the event a blocking wait (a sleep or a browser wait call)? -/
def isWaitBlockingEv : Ev → Bool
  | .sleep _ => true
  | .waitForElement _ _ => true
  | .waitForText _ _ => true
  | _ => false

/-- Number of recovery-advisor consultations in a trace. -/
def countRecovery (evs : List Ev) : Nat := evs.countP (fun e => isRecoveryEv e)

/-- Number of Action Dispatcher invocations in a trace. -/
def countDispatch (evs : List Ev) : Nat := evs.countP (fun e => isDispatchEv e)

/-- The selectors whose click was attempted, in trace order. -/
def clickEvents (evs : List Ev) : List String :=
  evs.filterMap (fun e => match e with | .click s => some s | _ => none)

/-- Does clicking this selector succeed on this browser? -/
def clickSucceeds (B : Browser) (sel : String) : Bool :=
  match B.click sel with
  | .ok _ => true
  | .error _ => false

/-- The candidates a first-success-short-circuit search attempts: every
candidate up to and including the first one whose click succeeds. -/
def attemptsUntilSuccess (B : Browser) : List String → List String
  | [] => []
  | sel :: rest =>
    if clickSucceeds B sel then [sel] else sel :: attemptsUntilSuccess B rest

/-! ### Concrete capabilities for witnesses and counterexamples -/

/-- A browser on which every operation succeeds. -/
def trivialB : Browser where
  goto _ := .ok ()
  title := .ok "T"
  click _ := .ok ()
  clear _ := .ok ()
  typeText _ _ := .ok ()
  text _ := .ok "txt"
  attribute_ _ _ := .ok "attr"
  text_all _ := .ok ["txt"]
  existsEl _ := .ok true
  evaluate _ := .ok (.b true)
  wait_for_element _ _ := .ok ()
  wait_for_text _ _ := .ok ()
  screenshot _ := .ok ()

/-- A browser whose clicks fail on `#a` and succeed elsewhere. -/
def clickAB : Browser :=
  { trivialB with click := fun sel => if sel = "#a" then .error "no" else .ok () }

/-- A browser on which every click fails. -/
def clickNoneB : Browser :=
  { trivialB with click := fun _ => .error "no" }

/-- A browser on which typing fails except into the `#f2` field. -/
def fillF2B : Browser :=
  { trivialB with typeText := fun sel _ => if sel = "#f2" then .ok () else .error "no el" }

/-- An advisor that finds no elements and always recommends manual
intervention. -/
def manualA : Advisor where
  analyze_screenshot _ _ := .ok []
  generate_error_recovery_strategy _ _ := .ok (some "manual_intervention")

/-- An advisor that always recommends an immediate retry. -/
def retryA : Advisor where
  analyze_screenshot _ _ := .ok []
  generate_error_recovery_strategy _ _ := .ok (some "immediate_retry")

/-- An advisor that always recommends the alternative approach. -/
def altA : Advisor where
  analyze_screenshot _ _ := .ok []
  generate_error_recovery_strategy _ _ := .ok (some "alternative_approach")

/-- A wait step whose `parameters.type` is unrecognized: the engine treats
it as an instant no-op success. -/
def noopStep (n : Nat) : Step :=
  { step_number := n, action_type := "wait", target := "",
    parameters := { type := some "noop" } }

/-- The `[1,2,4]`-numbered list from the step-numbering scenario. -/
def steps124 : List Step := [noopStep 1, noopStep 2, noopStep 4]

/-! ### Counting lemmas -/

theorem countRecovery_nil : countRecovery [] = 0 := rfl

theorem countRecovery_cons (e : Ev) (evs : List Ev) :
    countRecovery (e :: evs) = countRecovery evs + (if isRecoveryEv e then 1 else 0) := by
  simp [countRecovery, List.countP_cons]

theorem countRecovery_append (l1 l2 : List Ev) :
    countRecovery (l1 ++ l2) = countRecovery l1 + countRecovery l2 := by
  simp [countRecovery, List.countP_append]

theorem countRecovery_ite (c : Prop) [Decidable c] (l1 l2 : List Ev) :
    countRecovery (if c then l1 else l2) = if c then countRecovery l1 else countRecovery l2 := by
  split <;> rfl

theorem countDispatch_nil : countDispatch [] = 0 := rfl

theorem countDispatch_cons (e : Ev) (evs : List Ev) :
    countDispatch (e :: evs) = countDispatch evs + (if isDispatchEv e then 1 else 0) := by
  simp [countDispatch, List.countP_cons]

theorem countDispatch_append (l1 l2 : List Ev) :
    countDispatch (l1 ++ l2) = countDispatch l1 + countDispatch l2 := by
  simp [countDispatch, List.countP_append]

theorem countDispatch_ite (c : Prop) [Decidable c] (l1 l2 : List Ev) :
    countDispatch (if c then l1 else l2) = if c then countDispatch l1 else countDispatch l2 := by
  split <;> rfl

theorem take_screenshot_evs (B : Browser) (clk : List Nat) :
    (take_screenshot B clk).2.1
      = [Ev.shot ("screenshots/screenshot_" ++ toString (now clk).1 ++ ".png")] := by
  unfold take_screenshot; dsimp only; split <;> rfl

theorem take_screenshot_clk (B : Browser) (clk : List Nat) :
    (take_screenshot B clk).2.2 = (now clk).2 := by
  unfold take_screenshot; dsimp only; split <;> rfl

/-- A helper output that consults no advisor for recovery, marks no
dispatcher entry, and leaves `recovery_attempted` unset. -/
def cleanOut (o : StepOut) : Prop :=
  o.r.recovery_attempted = none ∧ countRecovery o.evs = 0 ∧ countDispatch o.evs = 0

theorem navigate_clean (B : Browser) (url : String) (p : Params) (clk : List Nat) :
    cleanOut (navigate_to_url B url p clk) := by
  unfold cleanOut navigate_to_url
  repeat' split
  all_goals
    simp [countRecovery_nil, countRecovery_cons, countRecovery_append,
      countRecovery_ite, countDispatch_nil, countDispatch_cons,
      countDispatch_append, countDispatch_ite, isRecoveryEv, isDispatchEv,
      take_screenshot_evs]

theorem clickLoop_clean (B : Browser) (p : Params) (cands : List String) :
    ∀ clk : List Nat,
    (∀ r, (clickLoop B p cands clk).res = some r → r.recovery_attempted = none) ∧
    countRecovery (clickLoop B p cands clk).evs = 0 ∧
    countDispatch (clickLoop B p cands clk).evs = 0 := by
  induction cands with
  | nil =>
    intro clk
    simp [clickLoop, countRecovery_nil, countDispatch_nil]
  | cons sel rest ih =>
    intro clk
    have h := ih clk
    unfold clickLoop
    cases hc : B.click sel with
    | error e =>
      refine ⟨fun r hr => h.1 r ?_, ?_, ?_⟩ <;>
        simp_all [countRecovery_cons, countDispatch_cons, isRecoveryEv, isDispatchEv]
    | ok u =>
      refine ⟨fun r hr => ?_, ?_, ?_⟩ <;>
        simp_all [take_screenshot_evs, countRecovery_nil, countRecovery_cons,
          countRecovery_append, countRecovery_ite, countDispatch_nil,
          countDispatch_cons, countDispatch_append, countDispatch_ite,
          isRecoveryEv, isDispatchEv]
      subst hr; rfl

theorem aiLoop_clean (B : Browser) (d sp : String) (elems : List IdElem) :
    (∀ r, (aiLoop B d sp elems).1 = some r → r.recovery_attempted = none) ∧
    countRecovery (aiLoop B d sp elems).2 = 0 ∧
    countDispatch (aiLoop B d sp elems).2 = 0 := by
  induction elems with
  | nil => simp [aiLoop, countRecovery_nil, countDispatch_nil]
  | cons e rest ih =>
    unfold aiLoop
    repeat' split
    all_goals
      first
      | exact ih
      | (refine ⟨fun r hr => ?_, ?_, ?_⟩ <;>
          simp_all [countRecovery_nil, countRecovery_cons, countDispatch_nil,
            countDispatch_cons, isRecoveryEv, isDispatchEv]
         subst hr; rfl)

theorem ai_assisted_click_clean (B : Browser) (A : Advisor) (d : String)
    (p : Params) (clk : List Nat) : cleanOut (ai_assisted_click B A d p clk) := by
  unfold cleanOut ai_assisted_click
  dsimp only
  cases hA : A.analyze_screenshot (take_screenshot B clk).1 ("Find and click element: " ++ d) with
  | error e =>
    simp [hA, take_screenshot_evs, countRecovery_nil, countRecovery_cons,
      countDispatch_nil, countDispatch_cons, isRecoveryEv, isDispatchEv]
  | ok elems =>
    have h := aiLoop_clean B d (take_screenshot B clk).1 elems
    cases hL : (aiLoop B d (take_screenshot B clk).1 elems).1 with
    | none =>
      simp [hA, hL, take_screenshot_evs, countRecovery_nil, countRecovery_cons,
        countRecovery_append, countDispatch_nil, countDispatch_cons,
        countDispatch_append, isRecoveryEv, isDispatchEv, h.2.1, h.2.2]
    | some r =>
      have hr := h.1 r hL
      simp [hA, hL, take_screenshot_evs, countRecovery_nil, countRecovery_cons,
        countRecovery_append, countDispatch_nil, countDispatch_cons,
        countDispatch_append, isRecoveryEv, isDispatchEv, h.2.1, h.2.2, hr]

theorem click_element_clean (B : Browser) (A : Advisor) (sel : String)
    (p : Params) (clk : List Nat) : cleanOut (click_element B A sel p clk) := by
  have hl := clickLoop_clean B p (sel :: p.fallback_selectors.getD []) clk
  have ha := ai_assisted_click_clean B A sel p
    (clickLoop B p (sel :: p.fallback_selectors.getD []) clk).clk
  unfold cleanOut click_element
  dsimp only
  cases hR : (clickLoop B p (sel :: p.fallback_selectors.getD []) clk).res with
  | some r =>
    have hr := hl.1 r hR
    simp [hR, hr, hl.2.1, hl.2.2]
  | none =>
    unfold cleanOut at ha
    simp [hR, countRecovery_append, countDispatch_append, hl.2.1, hl.2.2,
      ha.1, ha.2.1, ha.2.2]

theorem fill_form_clean (B : Browser) (sel : String) (p : Params)
    (clk : List Nat) : cleanOut (fill_form B sel p clk) := by
  unfold cleanOut fill_form
  dsimp only
  repeat' split
  all_goals
    simp_all [take_screenshot_evs, countRecovery_nil, countRecovery_cons,
      countRecovery_append, countRecovery_ite, countDispatch_nil,
      countDispatch_cons, countDispatch_append, countDispatch_ite,
      isRecoveryEv, isDispatchEv]

theorem extract_data_clean (B : Browser) (sel : String) (p : Params)
    (clk : List Nat) : cleanOut (extract_data B sel p clk) := by
  unfold cleanOut extract_data
  dsimp only
  repeat' split
  all_goals
    simp_all [take_screenshot_evs, countRecovery_nil, countRecovery_cons,
      countRecovery_append, countRecovery_ite, countDispatch_nil,
      countDispatch_cons, countDispatch_append, countDispatch_ite,
      isRecoveryEv, isDispatchEv]

theorem wait_action_clean (B : Browser) (cond : String) (p : Params)
    (clk : List Nat) : cleanOut (wait_action B cond p clk) := by
  unfold cleanOut wait_action
  dsimp only
  repeat' split
  all_goals
    simp_all [take_screenshot_evs, countRecovery_nil, countRecovery_cons,
      countRecovery_append, countRecovery_ite, countDispatch_nil,
      countDispatch_cons, countDispatch_append, countDispatch_ite,
      isRecoveryEv, isDispatchEv]

theorem execute_conditional_clean (B : Browser) (cond : String) (p : Params)
    (ctx : Ctx) (clk : List Nat) : cleanOut (execute_conditional B cond p ctx clk) := by
  unfold cleanOut execute_conditional
  dsimp only
  repeat' split
  all_goals
    simp_all [take_screenshot_evs, countRecovery_nil, countRecovery_cons,
      countRecovery_append, countRecovery_ite, countDispatch_nil,
      countDispatch_cons, countDispatch_append, countDispatch_ite,
      isRecoveryEv, isDispatchEv]

/-- The Action Dispatcher never consults the recovery advisor, marks
exactly its own invocation, and never sets `recovery_attempted`. -/
theorem execute_workflow_step_clean (B : Browser) (A : Advisor) (step : Step)
    (ctx : Ctx) (clk : List Nat) :
    (execute_workflow_step B A step ctx clk).r.recovery_attempted = none ∧
    countRecovery (execute_workflow_step B A step ctx clk).evs = 0 ∧
    countDispatch (execute_workflow_step B A step ctx clk).evs = 1 := by
  have h1 := navigate_clean B step.target step.parameters (now clk).2
  have h2 := click_element_clean B A step.target step.parameters (now clk).2
  have h3 := fill_form_clean B step.target step.parameters (now clk).2
  have h4 := extract_data_clean B step.target step.parameters (now clk).2
  have h5 := wait_action_clean B step.target step.parameters (now clk).2
  have h6 := execute_conditional_clean B step.target step.parameters ctx (now clk).2
  unfold execute_workflow_step
  dsimp only
  repeat' split
  all_goals
    refine ⟨?_, ?_, ?_⟩ <;>
    simp_all [cleanOut, take_screenshot_evs, countRecovery_nil,
      countRecovery_cons, countRecovery_append, countDispatch_nil,
      countDispatch_cons, countDispatch_append, isRecoveryEv, isDispatchEv]

/-- Every path through the Recovery Coordinator consults the advisor
exactly once and re-invokes the Action Dispatcher at most once. -/
theorem handle_step_failure_counts (B : Browser) (A : Advisor) (step : Step)
    (sr : RDict) (ctx : Ctx) (clk : List Nat) :
    countRecovery (handle_step_failure B A step sr ctx clk).evs = 1 ∧
    countDispatch (handle_step_failure B A step sr ctx clk).evs ≤ 1 := by
  have hR : ∀ s2 : Step, countRecovery (execute_workflow_step B A s2 ctx clk).evs = 0 :=
    fun s2 => (execute_workflow_step_clean B A s2 ctx clk).2.1
  have hD : ∀ s2 : Step, countDispatch (execute_workflow_step B A s2 ctx clk).evs = 1 :=
    fun s2 => (execute_workflow_step_clean B A s2 ctx clk).2.2
  unfold handle_step_failure
  dsimp only
  repeat' split
  all_goals
    simp [countRecovery_nil, countRecovery_cons, countDispatch_nil,
      countDispatch_cons, isRecoveryEv, isDispatchEv, hR, hD]

/-- A successful Coordinator result is a re-dispatch result, hence carries
no `recovery_attempted` mark. -/
theorem handle_step_failure_flag (B : Browser) (A : Advisor) (step : Step)
    (sr : RDict) (ctx : Ctx) (clk : List Nat) :
    (handle_step_failure B A step sr ctx clk).r.success = true →
    (handle_step_failure B A step sr ctx clk).r.recovery_attempted = none := by
  have hN : ∀ s2 : Step, (execute_workflow_step B A s2 ctx clk).r.recovery_attempted = none :=
    fun s2 => (execute_workflow_step_clean B A s2 ctx clk).1
  unfold handle_step_failure
  dsimp only
  repeat' split
  all_goals simp [failR, recoveryFailed, hN]

/-- Unfolding of the Coordinator under an `immediate_retry` advice: a
2-second sleep and exactly one re-dispatch of the same step, whose result
is returned unchanged. -/
theorem handle_step_failure_immediate (B : Browser) (A : Advisor) (step : Step)
    (sr : RDict) (ctx : Ctx) (clk : List Nat)
    (hA : A.generate_error_recovery_strategy (sr.error.getD "Unknown error")
        ("Step " ++ toString step.step_number ++ ": " ++ step.description)
        = .ok (some "immediate_retry")) :
    handle_step_failure B A step sr ctx clk =
      ⟨(execute_workflow_step B A step ctx clk).r,
        Ev.advisorRecovery (sr.error.getD "Unknown error") :: Ev.sleep 2000 ::
          (execute_workflow_step B A step ctx clk).evs,
        (execute_workflow_step B A step ctx clk).clk⟩ := by
  unfold handle_step_failure
  dsimp only
  rw [hA]
  rfl

/-- The results list only ever grows: the loop output extends the
accumulated list. -/
theorem runSteps_results_grow (B : Browser) (A : Advisor) (l : List Step) :
    ∀ (rs : List RDict) (ctx : Ctx) (clk : List Nat),
    ∃ t, (runSteps B A l rs ctx clk).results = rs ++ t := by
  induction l with
  | nil => intro rs ctx clk; exact ⟨[], by simp [runSteps]⟩
  | cons s rest ih =>
    intro rs ctx clk
    by_cases hd : (execute_workflow_step B A s ctx clk).r.success
    · obtain ⟨t, ht⟩ := ih (rs ++ [(execute_workflow_step B A s ctx clk).r])
        (ctxUpdate ctx (ctxKey s.step_number) (execute_workflow_step B A s ctx clk).r.data)
        (execute_workflow_step B A s ctx clk).clk
      exact ⟨[(execute_workflow_step B A s ctx clk).r] ++ t, by
        simp [runSteps, hd, ht]⟩
    · by_cases hh : (handle_step_failure B A s (execute_workflow_step B A s ctx clk).r ctx
          (execute_workflow_step B A s ctx clk).clk).r.success
      · obtain ⟨t, ht⟩ := ih
          (rs ++ [(handle_step_failure B A s (execute_workflow_step B A s ctx clk).r ctx
            (execute_workflow_step B A s ctx clk).clk).r]) ctx
          (handle_step_failure B A s (execute_workflow_step B A s ctx clk).r ctx
            (execute_workflow_step B A s ctx clk).clk).clk
        exact ⟨[(handle_step_failure B A s (execute_workflow_step B A s ctx clk).r ctx
          (execute_workflow_step B A s ctx clk).clk).r] ++ t, by
          simp [runSteps, hd, hh, ht]⟩
      · exact ⟨[(execute_workflow_step B A s ctx clk).r], by simp [runSteps, hd, hh]⟩

/-- Appending step lists composes the loop, provided the first part did
not exit through `break`. -/
theorem runSteps_append (B : Browser) (A : Advisor) (l1 : List Step) :
    ∀ (l2 : List Step) (rs : List RDict) (ctx : Ctx) (clk : List Nat),
    (runSteps B A l1 rs ctx clk).stopped = false →
    runSteps B A (l1 ++ l2) rs ctx clk =
      ⟨(runSteps B A l2 (runSteps B A l1 rs ctx clk).results
          (runSteps B A l1 rs ctx clk).ctx (runSteps B A l1 rs ctx clk).clk).results,
       (runSteps B A l2 (runSteps B A l1 rs ctx clk).results
          (runSteps B A l1 rs ctx clk).ctx (runSteps B A l1 rs ctx clk).clk).ctx,
       (runSteps B A l1 rs ctx clk).evs ++
         (runSteps B A l2 (runSteps B A l1 rs ctx clk).results
          (runSteps B A l1 rs ctx clk).ctx (runSteps B A l1 rs ctx clk).clk).evs,
       (runSteps B A l2 (runSteps B A l1 rs ctx clk).results
          (runSteps B A l1 rs ctx clk).ctx (runSteps B A l1 rs ctx clk).clk).clk,
       (runSteps B A l2 (runSteps B A l1 rs ctx clk).results
          (runSteps B A l1 rs ctx clk).ctx (runSteps B A l1 rs ctx clk).clk).stopped⟩ := by
  induction l1 with
  | nil => intro l2 rs ctx clk _; simp [runSteps]
  | cons s rest ih =>
    intro l2 rs ctx clk hstop
    by_cases hd : (execute_workflow_step B A s ctx clk).r.success
    · have hs : (runSteps B A rest (rs ++ [(execute_workflow_step B A s ctx clk).r])
          (ctxUpdate ctx (ctxKey s.step_number) (execute_workflow_step B A s ctx clk).r.data)
          (execute_workflow_step B A s ctx clk).clk).stopped = false := by
        simpa [runSteps, hd] using hstop
      simp [runSteps, hd, ih _ _ _ _ hs, List.append_assoc]
    · by_cases hh : (handle_step_failure B A s (execute_workflow_step B A s ctx clk).r ctx
          (execute_workflow_step B A s ctx clk).clk).r.success
      · have hs : (runSteps B A rest
            (rs ++ [(handle_step_failure B A s (execute_workflow_step B A s ctx clk).r ctx
              (execute_workflow_step B A s ctx clk).clk).r]) ctx
            (handle_step_failure B A s (execute_workflow_step B A s ctx clk).r ctx
              (execute_workflow_step B A s ctx clk).clk).clk).stopped = false := by
          simpa [runSteps, hd, hh] using hstop
        simp [runSteps, hd, hh, ih _ _ _ _ hs, List.append_assoc]
      · exfalso
        have : (runSteps B A (s :: rest) rs ctx clk).stopped = true := by
          simp [runSteps, hd, hh]
        rw [this] at hstop
        simp at hstop

/-- Across a whole run the recovery advisor is consulted at most once per
submitted step. -/
theorem runSteps_countRecovery_le (B : Browser) (A : Advisor) (l : List Step) :
    ∀ (rs : List RDict) (ctx : Ctx) (clk : List Nat),
    countRecovery (runSteps B A l rs ctx clk).evs ≤ l.length := by
  induction l with
  | nil => intro rs ctx clk; simp [runSteps, countRecovery_nil]
  | cons s rest ih =>
    intro rs ctx clk
    have hstep := (execute_workflow_step_clean B A s ctx clk).2.1
    have hfail := (handle_step_failure_counts B A s (execute_workflow_step B A s ctx clk).r
      ctx (execute_workflow_step B A s ctx clk).clk).1
    by_cases hd : (execute_workflow_step B A s ctx clk).r.success
    · have := ih (rs ++ [(execute_workflow_step B A s ctx clk).r])
        (ctxUpdate ctx (ctxKey s.step_number) (execute_workflow_step B A s ctx clk).r.data)
        (execute_workflow_step B A s ctx clk).clk
      simp only [runSteps, hd, if_true, List.length_cons]
      simp [countRecovery_append, hstep]
      omega
    · by_cases hh : (handle_step_failure B A s (execute_workflow_step B A s ctx clk).r ctx
          (execute_workflow_step B A s ctx clk).clk).r.success
      · have := ih (rs ++ [(handle_step_failure B A s (execute_workflow_step B A s ctx clk).r ctx
            (execute_workflow_step B A s ctx clk).clk).r]) ctx
          (handle_step_failure B A s (execute_workflow_step B A s ctx clk).r ctx
            (execute_workflow_step B A s ctx clk).clk).clk
        simp only [runSteps, hd, hh, if_false, if_true, List.length_cons]
        simp [countRecovery_append, hstep, hfail]
        omega
      · simp only [runSteps, hd, hh, if_false, List.length_cons]
        simp [countRecovery_append, hstep, hfail]

theorem clickEvents_nil : clickEvents [] = [] := rfl

theorem clickEvents_cons (e : Ev) (evs : List Ev) :
    clickEvents (e :: evs)
      = (match e with | Ev.click s => [s] | _ => []) ++ clickEvents evs := by
  cases e <;> simp [clickEvents, List.filterMap_cons]

theorem clickEvents_append (l1 l2 : List Ev) :
    clickEvents (l1 ++ l2) = clickEvents l1 ++ clickEvents l2 := by
  simp [clickEvents, List.filterMap_append]

theorem clickEvents_ite (c : Prop) [Decidable c] (l1 l2 : List Ev) :
    clickEvents (if c then l1 else l2) = if c then clickEvents l1 else clickEvents l2 := by
  split <;> rfl

/-- The selector loop clicks exactly the candidate prefix up to and
including the first selector that succeeds. -/
theorem clickLoop_clicks (B : Browser) (p : Params) (cands : List String) :
    ∀ clk : List Nat,
    clickEvents (clickLoop B p cands clk).evs = attemptsUntilSuccess B cands := by
  induction cands with
  | nil => intro clk; simp [clickLoop, attemptsUntilSuccess, clickEvents_nil]
  | cons sel rest ih =>
    intro clk
    unfold clickLoop attemptsUntilSuccess
    cases hc : B.click sel with
    | error e =>
      simp [clickSucceeds, hc, clickEvents_cons, ih clk]
    | ok u =>
      simp [clickSucceeds, hc, take_screenshot_evs, clickEvents_nil,
        clickEvents_cons, clickEvents_append, clickEvents_ite]

/-- The attempted prefix is a sublist of the candidate list. -/
theorem attemptsUntilSuccess_sublist (B : Browser) :
    ∀ cands : List String, List.Sublist (attemptsUntilSuccess B cands) cands
  | [] => by simp [attemptsUntilSuccess]
  | sel :: rest => by
    unfold attemptsUntilSuccess
    split
    · exact (List.nil_sublist rest).cons₂ sel
    · exact (attemptsUntilSuccess_sublist B rest).cons₂ sel

/-- A duplicate-free candidate list is attempted without repetition. -/
theorem attemptsUntilSuccess_nodup (B : Browser) (cands : List String)
    (h : cands.Nodup) : (attemptsUntilSuccess B cands).Nodup :=
  List.Nodup.sublist (attemptsUntilSuccess_sublist B cands) h

/-- When some static candidate clicks successfully, the resolver returns
the loop result and the AI-assisted phase is never entered. -/
theorem click_element_static (B : Browser) (A : Advisor) (sel : String)
    (p : Params) (clk : List Nat) (r : RDict)
    (h : (clickLoop B p (sel :: p.fallback_selectors.getD []) clk).res = some r) :
    click_element B A sel p clk
      = ⟨r, (clickLoop B p (sel :: p.fallback_selectors.getD []) clk).evs,
          (clickLoop B p (sel :: p.fallback_selectors.getD []) clk).clk⟩ := by
  unfold click_element
  dsimp only
  rw [h]

/-- A single navigate step used by the replay scenario. -/
def navStep : Step := { step_number := 1, action_type := "navigate", target := "https://x" }

/-- C2: for every step list, the report of `execute_workflow` satisfies
`steps_completed <= total_steps`, `workflow_success` holds exactly when
`steps_completed = total_steps`, and `steps_completed` is the number of
successful step results. -/
theorem c2_report_invariants (B : Browser) (A : Advisor) (steps : List Step)
    (ctx0 : Ctx) (clk : List Nat) :
    (execute_workflow B A steps ctx0 clk).report.steps_completed
        ≤ (execute_workflow B A steps ctx0 clk).report.total_steps ∧
    ((execute_workflow B A steps ctx0 clk).report.workflow_success = true ↔
      (execute_workflow B A steps ctx0 clk).report.steps_completed
        = (execute_workflow B A steps ctx0 clk).report.total_steps) ∧
    (execute_workflow B A steps ctx0 clk).report.steps_completed
      = ((execute_workflow B A steps ctx0 clk).report.step_results.filter
          (fun r => r.success)).length := by
  unfold execute_workflow
  dsimp only
  cases hs : screenshotsOf (runSteps B A steps [] ctx0 clk).results with
  | ok shots =>
    simp only [hs]
    refine ⟨List.length_filter_le _ _, ?_, ?_⟩ <;> simp
  | error e =>
    have hne : steps ≠ [] := by
      intro h
      subst h
      simp [runSteps, screenshotsOf] at hs
    simp only [hs]
    cases steps with
    | nil => exact absurd rfl hne
    | cons a l =>
      refine ⟨Nat.zero_le _, ?_, ?_⟩ <;> simp

/-- C9 (amended): replaying the same step list against the same browser
and advisor capabilities and the same timestamp source yields an identical
report. -/
theorem c9_deterministic_given_clock (B : Browser) (A : Advisor)
    (steps : List Step) (ctx0 : Ctx) (clk1 clk2 : List Nat) (h : clk1 = clk2) :
    (execute_workflow B A steps ctx0 clk1).report
      = (execute_workflow B A steps ctx0 clk2).report := by
  rw [h]

/-- Witness for `c9_deterministic_given_clock` at a concrete run. -/
theorem c9_witness :
    ([] : List Nat) = ([] : List Nat) ∧
    (execute_workflow trivialB manualA steps124 [] []).report
      = (execute_workflow trivialB manualA steps124 [] []).report :=
  ⟨rfl, c9_deterministic_given_clock trivialB manualA steps124 [] [] [] rfl⟩

/-- C9 counterexample: with browser and advisor fixed and deterministic
but the ambient clock advanced, the two replayed reports differ (the
screenshot reference and duration embed timestamps). -/
theorem c9_counterexample :
    (execute_workflow trivialB manualA [navStep] [] []).report
      ≠ (execute_workflow trivialB manualA [navStep] [] [1, 2, 3, 4]).report := by
  decide

/-- C10: a wait step whose `parameters.type` is present but not `time`,
`element` or `text` succeeds immediately: no sleep and no browser wait
call appears in its trace, and the `timeout` parameter does not affect
the outcome. -/
theorem c10_unrecognized_wait (B : Browser) (A : Advisor) (step : Step)
    (ctx : Ctx) (clk : List Nat) (t : String) (x : Option Int)
    (h1 : step.action_type = "wait") (h2 : step.parameters.type = some t)
    (h3 : t ≠ "time") (h4 : t ≠ "element") (h5 : t ≠ "text") :
    (execute_workflow_step B A step ctx clk).r.success = true ∧
    (execute_workflow_step B A step ctx clk).evs.all
      (fun e => !isWaitBlockingEv e) = true ∧
    execute_workflow_step B A
        { step with parameters := { step.parameters with timeout := x } } ctx clk
      = execute_workflow_step B A step ctx clk := by
  unfold execute_workflow_step wait_action
  dsimp only
  simp only [h1, h2]
  simp +decide [take_screenshot_evs, isWaitBlockingEv, h3, h4, h5]

/-- A fill step with two fallback selectors, used for the recovery
fallback scenario. -/
def fillStep : Step :=
  { step_number := 2, action_type := "fill", target := "#in",
    parameters := { fallback_selectors := some ["#f1", "#f2"], value := some "v" } }

/-- A fill step with no fallbacks whose target cannot be typed into. -/
def fillStepX : Step :=
  { step_number := 2, action_type := "fill", target := "#x",
    parameters := { value := some "v" } }

/-- A step with an unrecognized action type. -/
def hoverStep : Step := { step_number := 1, action_type := "hover", target := "#x" }

/-- Parameters with the single fallback selector `#b`. -/
def abParams : Params := { fallback_selectors := some ["#b"] }

/-- Parameters whose fallback list repeats the primary selector `#a`. -/
def dupParams : Params := { fallback_selectors := some ["#a"] }

/-- C1 counterexample: the `[1,2,4]`-numbered list is not rejected; all
three steps are dispatched and the run completes successfully, so no
up-front step-number validation exists. -/
theorem c1_counterexample :
    (execute_workflow trivialB manualA steps124 [] []).report.step_results.length = 3 ∧
    (execute_workflow trivialB manualA steps124 [] []).report.steps_completed = 3 ∧
    (execute_workflow trivialB manualA steps124 [] []).report.workflow_success = true := by
  decide

/-- The Action Dispatcher trace always begins with its invocation
marker. -/
theorem execute_workflow_step_evs_head (B : Browser) (A : Advisor) (step : Step)
    (ctx : Ctx) (clk : List Nat) :
    ∃ t, (execute_workflow_step B A step ctx clk).evs
      = Ev.dispatchStep step.step_number :: t := by
  unfold execute_workflow_step
  dsimp only
  repeat' split
  all_goals exact ⟨_, rfl⟩

/-- C1 (amended): `execute_workflow` performs no step-number validation
and never rejects a list up front: for every nonempty step list the very
first event of the run is the dispatch of the first step, and the
`[1,2,4]` list executes every step (three dispatcher invocations,
`steps_completed = 3`). -/
theorem c1_no_validation (B : Browser) (A : Advisor) (s : Step) (rest : List Step)
    (ctx0 : Ctx) (clk : List Nat) :
    (execute_workflow B A (s :: rest) ctx0 clk).evs.head?
      = some (Ev.dispatchStep s.step_number) ∧
    countDispatch (execute_workflow trivialB manualA steps124 [] []).evs = 3 ∧
    (execute_workflow trivialB manualA steps124 [] []).report.steps_completed = 3 := by
  refine ⟨?_, by decide, by decide⟩
  obtain ⟨t, ht⟩ := execute_workflow_step_evs_head B A s ctx0 clk
  unfold execute_workflow
  dsimp only
  by_cases hd : (execute_workflow_step B A s ctx0 clk).r.success
  · simp [runSteps, hd, ht]
  · by_cases hh : (handle_step_failure B A s (execute_workflow_step B A s ctx0 clk).r ctx0
        (execute_workflow_step B A s ctx0 clk).clk).r.success
    · simp [runSteps, hd, hh, ht]
    · simp [runSteps, hd, hh, ht]

/-- C5: under an `alternative_approach` advice with fallbacks
`["#f1", "#f2"]`, where `#f1` fails and `#f2` would succeed, the
Coordinator dispatches exactly once (with `#f1`), never touches `#f2`,
and returns a failure: the fallback iteration stops at the first
selector regardless of its outcome. -/
theorem c5_first_fallback_only :
    (handle_step_failure fillF2B altA fillStep
        (execute_workflow_step fillF2B altA fillStep [] []).r []
        (execute_workflow_step fillF2B altA fillStep [] []).clk).r.success = false ∧
    countDispatch (handle_step_failure fillF2B altA fillStep
        (execute_workflow_step fillF2B altA fillStep [] []).r []
        (execute_workflow_step fillF2B altA fillStep [] []).clk).evs = 1 ∧
    ((handle_step_failure fillF2B altA fillStep
        (execute_workflow_step fillF2B altA fillStep [] []).r []
        (execute_workflow_step fillF2B altA fillStep [] []).clk).evs.all
      (fun e => e ≠ Ev.typeIn "#f2" "v")) = true ∧
    (execute_workflow_step fillF2B altA { fillStep with target := "#f2" } [] []).r.success
      = true := by
  decide

/-- C6 counterexample: a step failing with an unrecognized action type
under `manual_intervention`: recovery runs (one advisor consultation),
the Coordinator returns a result stamped `recovery_attempted := true`,
yet the report keeps the original failure, whose `recovery_attempted` is
unset — the Coordinator result never reaches the report. -/
theorem c6_counterexample :
    countRecovery (execute_workflow trivialB manualA [hoverStep] [] []).evs = 1 ∧
    (execute_workflow trivialB manualA [hoverStep] [] []).report.step_results.map
      (fun r => r.recovery_attempted) = [none] ∧
    (handle_step_failure trivialB manualA hoverStep
        (execute_workflow_step trivialB manualA hoverStep [] []).r []
        (execute_workflow_step trivialB manualA hoverStep [] []).clk).r.recovery_attempted
      = some true := by
  decide

/-- C7 counterexample: with the fallback list repeating the primary
selector, the same locator `#a` is clicked twice within one resolution
call. -/
theorem c7_counterexample :
    clickEvents (click_element clickNoneB manualA "#a" dupParams []).evs = ["#a", "#a"] ∧
    ¬ (clickEvents (click_element clickNoneB manualA "#a" dupParams []).evs).Nodup := by
  decide

/-- C8 counterexample: a step with the unrecognized action type `hover`
is not exempt from recovery: the advisor is consulted once and, under an
`immediate_retry` advice, the step is dispatched a second time. -/
theorem c8_counterexample :
    countRecovery (execute_workflow trivialB retryA [hoverStep] [] []).evs = 1 ∧
    countDispatch (execute_workflow trivialB retryA [hoverStep] [] []).evs = 2 := by
  decide

/-- A browser on which typing fails except into the `#f1` field, so the
first fallback re-dispatch of a failed fill succeeds. -/
def fillF1B : Browser :=
  { trivialB with typeText := fun sel _ => if sel = "#f1" then .ok () else .error "no el" }

/-- C7 (amended): in one click resolution call the statically supplied
candidates (primary, then fallbacks) are attempted in listed order up to
and including the first success, later candidates untried; a
duplicate-free candidate list is never attempted twice, and the
`["#a", "#b"]` scenario performs exactly two clicks and records `#b`.
(When the caller repeats a selector among the candidates, or the
AI-assisted phase proposes an already-tried locator, the same locator can
be clicked again.) -/
theorem c7_ordered_short_circuit (B : Browser) (A : Advisor) (sel : String)
    (p : Params) (clk : List Nat) :
    clickEvents (clickLoop B p (sel :: p.fallback_selectors.getD []) clk).evs
      = attemptsUntilSuccess B (sel :: p.fallback_selectors.getD []) ∧
    ((sel :: p.fallback_selectors.getD []).Nodup →
      (clickEvents (clickLoop B p (sel :: p.fallback_selectors.getD []) clk).evs).Nodup) ∧
    (∀ r, (clickLoop B p (sel :: p.fallback_selectors.getD []) clk).res = some r →
      click_element B A sel p clk
        = ⟨r, (clickLoop B p (sel :: p.fallback_selectors.getD []) clk).evs,
            (clickLoop B p (sel :: p.fallback_selectors.getD []) clk).clk⟩) ∧
    (clickEvents (click_element clickAB manualA "#a" abParams []).evs = ["#a", "#b"] ∧
     (click_element clickAB manualA "#a" abParams []).r.data = some (.clicked "#b") ∧
     (click_element clickAB manualA "#a" abParams []).r.success = true) := by
  refine ⟨clickLoop_clicks B p _ clk, ?_, ?_, by decide⟩
  · intro h
    rw [clickLoop_clicks B p _ clk]
    exact attemptsUntilSuccess_nodup B _ h
  · intro r hr
    exact click_element_static B A sel p clk r hr

/-- Witness for `c7_ordered_short_circuit`: its implications discharged on
the concrete two-candidate scenario. -/
theorem c7_witness :
    ("#a" :: abParams.fallback_selectors.getD []).Nodup ∧
    (clickLoop clickAB abParams ("#a" :: abParams.fallback_selectors.getD []) []).res
      = some (click_element clickAB manualA "#a" abParams []).r ∧
    (clickEvents (clickLoop clickAB abParams
        ("#a" :: abParams.fallback_selectors.getD []) []).evs).Nodup ∧
    click_element clickAB manualA "#a" abParams []
      = ⟨(click_element clickAB manualA "#a" abParams []).r,
         (clickLoop clickAB abParams ("#a" :: abParams.fallback_selectors.getD []) []).evs,
         (clickLoop clickAB abParams ("#a" :: abParams.fallback_selectors.getD []) []).clk⟩ :=
  ⟨by decide, by decide,
   (c7_ordered_short_circuit clickAB manualA "#a" abParams []).2.1 (by decide),
   (c7_ordered_short_circuit clickAB manualA "#a" abParams []).2.2.1 _ (by decide)⟩

/-- C8 (amended): an unrecognized action type yields `success = false`
with error `Unknown action type: ...`, but the step is not exempt from
recovery: its failure still triggers one recovery-advisor consultation
like any other failure. -/
theorem c8_unknown_action (B : Browser) (A : Advisor) (step : Step)
    (ctx : Ctx) (clk : List Nat)
    (h1 : step.action_type ≠ "navigate") (h2 : step.action_type ≠ "click")
    (h3 : step.action_type ≠ "fill") (h4 : step.action_type ≠ "extract")
    (h5 : step.action_type ≠ "wait") (h6 : step.action_type ≠ "conditional") :
    (execute_workflow_step B A step ctx clk).r.success = false ∧
    (execute_workflow_step B A step ctx clk).r.error
      = some ("Unknown action type: " ++ step.action_type) ∧
    countRecovery (execute_workflow B A [step] ctx clk).evs = 1 := by
  have hd : (execute_workflow_step B A step ctx clk).r.success = false ∧
      (execute_workflow_step B A step ctx clk).r.error
        = some ("Unknown action type: " ++ step.action_type) := by
    unfold execute_workflow_step
    dsimp only
    simp [h1, h2, h3, h4, h5, h6]
  have hc := (execute_workflow_step_clean B A step ctx clk).2.1
  have hf := (handle_step_failure_counts B A step (execute_workflow_step B A step ctx clk).r
    ctx (execute_workflow_step B A step ctx clk).clk).1
  refine ⟨hd.1, hd.2, ?_⟩
  unfold execute_workflow
  dsimp only
  by_cases hh : (handle_step_failure B A step (execute_workflow_step B A step ctx clk).r ctx
      (execute_workflow_step B A step ctx clk).clk).r.success
  · simp [runSteps, hd.1, hh, countRecovery_append, countRecovery_nil, hc, hf]
  · simp [runSteps, hd.1, hh, countRecovery_append, countRecovery_nil, hc, hf]

/-- Witness for `c8_unknown_action` at the `hover` step. -/
theorem c8_witness :
    (hoverStep.action_type ≠ "navigate" ∧ hoverStep.action_type ≠ "click" ∧
     hoverStep.action_type ≠ "fill" ∧ hoverStep.action_type ≠ "extract" ∧
     hoverStep.action_type ≠ "wait" ∧ hoverStep.action_type ≠ "conditional") ∧
    ((execute_workflow_step trivialB retryA hoverStep [] []).r.success = false ∧
     (execute_workflow_step trivialB retryA hoverStep [] []).r.error
       = some ("Unknown action type: " ++ hoverStep.action_type) ∧
     countRecovery (execute_workflow trivialB retryA [hoverStep] [] []).evs = 1) :=
  ⟨⟨by decide, by decide, by decide, by decide, by decide, by decide⟩,
   c8_unknown_action trivialB retryA hoverStep [] [] (by decide) (by decide)
     (by decide) (by decide) (by decide) (by decide)⟩

/-- Every result the loop stores is either carried over from the input
accumulator or free of the `recovery_attempted` mark (it is a dispatch
result, possibly a successful recovery re-dispatch). -/
theorem runSteps_flag_none (B : Browser) (A : Advisor) (l : List Step) :
    ∀ (rs : List RDict) (ctx : Ctx) (clk : List Nat) (r : RDict),
    r ∈ (runSteps B A l rs ctx clk).results →
    r ∈ rs ∨ r.recovery_attempted = none := by
  induction l with
  | nil =>
    intro rs ctx clk r hr
    left
    simpa [runSteps] using hr
  | cons s rest ih =>
    intro rs ctx clk r hr
    by_cases hd : (execute_workflow_step B A s ctx clk).r.success
    · simp only [runSteps, hd, if_true] at hr
      rcases ih _ _ _ r hr with h | h
      · rcases List.mem_append.mp h with h1 | h1
        · exact Or.inl h1
        · right
          have he : r = (execute_workflow_step B A s ctx clk).r := by simpa using h1
          rw [he]
          exact (execute_workflow_step_clean B A s ctx clk).1
      · exact Or.inr h
    · by_cases hh : (handle_step_failure B A s (execute_workflow_step B A s ctx clk).r ctx
          (execute_workflow_step B A s ctx clk).clk).r.success
      · simp only [runSteps, hd, hh] at hr
        simp only [Bool.false_eq_true, if_false, if_true] at hr
        rcases ih _ _ _ r hr with h | h
        · rcases List.mem_append.mp h with h1 | h1
          · exact Or.inl h1
          · right
            have he : r = (handle_step_failure B A s (execute_workflow_step B A s ctx clk).r ctx
                (execute_workflow_step B A s ctx clk).clk).r := by simpa using h1
            rw [he]
            exact handle_step_failure_flag B A s _ ctx _ hh
        · exact Or.inr h
      · simp only [runSteps, hd, hh] at hr
        simp only [Bool.false_eq_true, if_false] at hr
        rcases List.mem_append.mp hr with h1 | h1
        · exact Or.inl h1
        · right
          have he : r = (execute_workflow_step B A s ctx clk).r := by simpa using h1
          rw [he]
          exact (execute_workflow_step_clean B A s ctx clk).1

/-- C6 (amended): the Action Dispatcher never sets `recovery_attempted`.
When a failing step recovers successfully, the Coordinator result (a
re-dispatch result, `recovery_attempted` unset) replaces the stored
result in the loop; when recovery fails, the loop keeps the original
pre-recovery failure and stops, discarding the Coordinator result - the
only dict ever stamped `recovery_attempted := true`.  Consequently no
step result of any returned report carries `recovery_attempted = true`
(a run stopped by a helper failure even returns the KeyError fallback
report with no step results at all). -/
theorem c6_recovery_result (B : Browser) (A : Advisor) (step : Step)
    (rest : List Step) (rs : List RDict) (ctx : Ctx) (clk : List Nat)
    (steps : List Step) (ctx0 : Ctx) (clk0 : List Nat) :
    (execute_workflow_step B A step ctx clk).r.recovery_attempted = none ∧
    ((execute_workflow_step B A step ctx clk).r.success = false →
     (handle_step_failure B A step (execute_workflow_step B A step ctx clk).r ctx
        (execute_workflow_step B A step ctx clk).clk).r.success = true →
     (handle_step_failure B A step (execute_workflow_step B A step ctx clk).r ctx
        (execute_workflow_step B A step ctx clk).clk).r.recovery_attempted = none ∧
     ∃ t, (runSteps B A (step :: rest) rs ctx clk).results
        = (rs ++ [(handle_step_failure B A step (execute_workflow_step B A step ctx clk).r ctx
            (execute_workflow_step B A step ctx clk).clk).r]) ++ t) ∧
    ((execute_workflow_step B A step ctx clk).r.success = false →
     (handle_step_failure B A step (execute_workflow_step B A step ctx clk).r ctx
        (execute_workflow_step B A step ctx clk).clk).r.success = false →
     (runSteps B A (step :: rest) rs ctx clk).results
        = rs ++ [(execute_workflow_step B A step ctx clk).r]) ∧
    (∀ r ∈ (execute_workflow B A steps ctx0 clk0).report.step_results,
      r.recovery_attempted = none) := by
  refine ⟨(execute_workflow_step_clean B A step ctx clk).1, ?_, ?_, ?_⟩
  · intro hd hh
    refine ⟨handle_step_failure_flag B A step _ ctx _ hh, ?_⟩
    obtain ⟨t, ht⟩ := runSteps_results_grow B A rest
      (rs ++ [(handle_step_failure B A step (execute_workflow_step B A step ctx clk).r ctx
        (execute_workflow_step B A step ctx clk).clk).r]) ctx
      (handle_step_failure B A step (execute_workflow_step B A step ctx clk).r ctx
        (execute_workflow_step B A step ctx clk).clk).clk
    exact ⟨t, by simp only [runSteps, hd, hh]; simpa using ht⟩
  · intro hd hh
    simp [runSteps, hd, hh]
  · intro r hr
    revert hr
    unfold execute_workflow
    dsimp only
    cases hs : screenshotsOf (runSteps B A steps [] ctx0 clk0).results with
    | ok shots =>
      simp only [hs]
      intro hr
      rcases runSteps_flag_none B A steps [] ctx0 clk0 r hr with h | h
      · exact absurd h (List.not_mem_nil r)
      · exact h
    | error e =>
      simp only [hs]
      intro hr
      exact absurd hr (List.not_mem_nil r)

/-- Witness for `c6_recovery_result`: both recovery outcomes exercised on
concrete runs (successful recovery via the `#f1` fallback; failed
recovery under manual intervention). -/
theorem c6_witness :
    ((execute_workflow_step fillF1B altA fillStep [] []).r.success = false ∧
     (handle_step_failure fillF1B altA fillStep
        (execute_workflow_step fillF1B altA fillStep [] []).r []
        (execute_workflow_step fillF1B altA fillStep [] []).clk).r.success = true ∧
     ((handle_step_failure fillF1B altA fillStep
        (execute_workflow_step fillF1B altA fillStep [] []).r []
        (execute_workflow_step fillF1B altA fillStep [] []).clk).r.recovery_attempted = none ∧
      ∃ t, (runSteps fillF1B altA [fillStep] [] [] []).results
        = ([] ++ [(handle_step_failure fillF1B altA fillStep
            (execute_workflow_step fillF1B altA fillStep [] []).r []
            (execute_workflow_step fillF1B altA fillStep [] []).clk).r]) ++ t)) ∧
    ((execute_workflow_step fillF2B manualA fillStepX [] []).r.success = false ∧
     (handle_step_failure fillF2B manualA fillStepX
        (execute_workflow_step fillF2B manualA fillStepX [] []).r []
        (execute_workflow_step fillF2B manualA fillStepX [] []).clk).r.success = false ∧
     (runSteps fillF2B manualA [fillStepX] [] [] []).results
        = [] ++ [(execute_workflow_step fillF2B manualA fillStepX [] []).r]) ∧
    ((execute_workflow_step trivialB manualA hoverStep [] []).r
        ∈ (execute_workflow trivialB manualA [hoverStep] [] []).report.step_results ∧
     (execute_workflow_step trivialB manualA hoverStep [] []).r.recovery_attempted = none) :=
  ⟨⟨by decide, by decide,
    (c6_recovery_result fillF1B altA fillStep [] [] [] [] [] [] []).2.1
      (by decide) (by decide)⟩,
   ⟨by decide, by decide,
    (c6_recovery_result fillF2B manualA fillStepX [] [] [] [] [] [] []).2.2.1
      (by decide) (by decide)⟩,
   by decide,
   (c6_recovery_result trivialB manualA hoverStep [] [] [] [] [hoverStep] [] []).2.2.2
     (execute_workflow_step trivialB manualA hoverStep [] []).r (by decide)⟩

/-- C3: at the 3-step scenario whose second step (a fill) fails under a
manual-intervention advice, the Runner does stop - step 3 is never
dispatched (two dispatcher invocations, one advisor consultation) - but
the returned report does not retain the partial results: the failing
fill dict has no `screenshot` key, so the report comprehension raises
KeyError and the caught exception yields the fallback report with
`steps_completed = 0`, `total_steps = 3` and no step results, instead of
the claimed `steps_completed = 1` with the prior success and the failing
step retained. -/
theorem c3_failing_run_report :
    countDispatch (execute_workflow fillF2B manualA
        [noopStep 1, fillStepX, noopStep 3] [] []).evs = 2 ∧
    countRecovery (execute_workflow fillF2B manualA
        [noopStep 1, fillStepX, noopStep 3] [] []).evs = 1 ∧
    (execute_workflow fillF2B manualA [noopStep 1, fillStepX, noopStep 3] [] []).report
      = { workflow_success := false, steps_completed := 0, total_steps := 3,
          step_results := [], context := none, screenshots := none,
          error := some "KeyError: screenshot" } := by
  decide

/-- C4: the Recovery Coordinator consults the advisor exactly once; under
an `immediate_retry` advice it sleeps 2 seconds and re-invokes the Action
Dispatcher exactly once for the same step, returning that result even if
the retry fails; across a run the advisor is consulted at most once per
submitted step. -/
theorem c4_recovery_once (B : Browser) (A : Advisor) (step : Step) (sr : RDict)
    (ctx : Ctx) (clk : List Nat) (steps : List Step) (rs : List RDict)
    (ctx2 : Ctx) (clk2 : List Nat)
    (hA : ∀ e c, A.generate_error_recovery_strategy e c
      = Except.ok (some "immediate_retry")) :
    countRecovery (handle_step_failure B A step sr ctx clk).evs = 1 ∧
    countDispatch (handle_step_failure B A step sr ctx clk).evs = 1 ∧
    (handle_step_failure B A step sr ctx clk).evs
      = Ev.advisorRecovery (sr.error.getD "Unknown error") :: Ev.sleep 2000 ::
          (execute_workflow_step B A step ctx clk).evs ∧
    (handle_step_failure B A step sr ctx clk).r = (execute_workflow_step B A step ctx clk).r ∧
    countRecovery (runSteps B A steps rs ctx2 clk2).evs ≤ steps.length := by
  have heq := handle_step_failure_immediate B A step sr ctx clk (hA _ _)
  rw [heq]
  refine ⟨?_, ?_, rfl, rfl, runSteps_countRecovery_le B A steps rs ctx2 clk2⟩
  · simp [countRecovery_cons, isRecoveryEv,
      (execute_workflow_step_clean B A step ctx clk).2.1]
  · simp [countDispatch_cons, isDispatchEv,
      (execute_workflow_step_clean B A step ctx clk).2.2]

/-- Witness for `c4_recovery_once` on a concrete failing fill step under
the always-retry advisor. -/
theorem c4_witness :
    countRecovery (handle_step_failure fillF2B retryA fillStepX
        { success := false, error := some "boom" } [] []).evs = 1 ∧
    countDispatch (handle_step_failure fillF2B retryA fillStepX
        { success := false, error := some "boom" } [] []).evs = 1 ∧
    (handle_step_failure fillF2B retryA fillStepX
        { success := false, error := some "boom" } [] []).evs
      = Ev.advisorRecovery (({ success := false, error := some "boom" } : RDict).error.getD
          "Unknown error") :: Ev.sleep 2000 ::
          (execute_workflow_step fillF2B retryA fillStepX [] []).evs ∧
    (handle_step_failure fillF2B retryA fillStepX
        { success := false, error := some "boom" } [] []).r
      = (execute_workflow_step fillF2B retryA fillStepX [] []).r ∧
    countRecovery (runSteps fillF2B retryA [fillStepX] [] [] []).evs ≤ [fillStepX].length :=
  c4_recovery_once fillF2B retryA fillStepX { success := false, error := some "boom" }
    [] [] [fillStepX] [] [] [] (fun _ _ => rfl)

/-- Witness for `c10_unrecognized_wait` on the concrete no-op wait step. -/
theorem c10_witness :
    (noopStep 1).action_type = "wait" ∧ (noopStep 1).parameters.type = some "noop" ∧
    ("noop" ≠ "time" ∧ "noop" ≠ "element" ∧ "noop" ≠ "text") ∧
    ((execute_workflow_step trivialB manualA (noopStep 1) [] []).r.success = true ∧
     (execute_workflow_step trivialB manualA (noopStep 1) [] []).evs.all
       (fun e => !isWaitBlockingEv e) = true ∧
     execute_workflow_step trivialB manualA
        { noopStep 1 with parameters := { (noopStep 1).parameters with timeout := some 42 } }
        [] []
      = execute_workflow_step trivialB manualA (noopStep 1) [] []) :=
  ⟨rfl, rfl, ⟨by decide, by decide, by decide⟩,
   c10_unrecognized_wait trivialB manualA (noopStep 1) [] [] "noop" (some 42)
     rfl rfl (by decide) (by decide) (by decide)⟩
